import Mathlib

/-!
Verification development for the `python-firestore` client library sources:
`base_transaction.py`, `client.py`, `collection.py`, `async_collection.py`.

Python objects are embedded shallowly: classes become structures, methods
become pure functions from the receiver (and arguments) to the updated
receiver or result, exceptions become `Except`/`Option String` error
components, and the bulk-writer side effects of `_recursive_delete` are
reified as an ordered event trace.
-/

/-- Opaque stand-in for a Python `bytes` transaction token. -/
abbrev Bytes := List Nat

/-- Opaque stand-in for a protobuf `Write` message held in a write buffer. -/
abbrev WritePb := Nat

/-- `int: Default number of transaction attempts (with retries).` -/
def MAX_ATTEMPTS : Nat := 5

/-- Error message raised when a retry id is supplied for a read-only
transaction (`base_transaction.py`). -/
def _CANT_RETRY_READ_ONLY : String := "Only read-write transactions can be retried."

/-- Embedding of `types.TransactionOptions`: the protobuf option message is a
oneof between read-write mode (carrying the `retry_transaction` token the code
always sets when it builds this arm) and read-only mode. -/
inductive TransactionOptions where
  | read_write (retry_transaction : Bytes)
  | read_only
deriving Repr, DecidableEq

/-- Embedding of the state of `BaseTransaction` (`base_transaction.py`):
`_max_attempts`, `_read_only`, `_id` set by `__init__`, and the `_write_pbs`
buffer that `_clean_up` resets (populated by the concrete subclass). -/
structure BaseTransaction where
  max_attempts : Nat
  read_only : Bool
  id : Option Bytes
  write_pbs : List WritePb
deriving Repr, DecidableEq

/-- Embedding of `BaseTransaction.__init__(max_attempts, read_only)`:
stores both options and starts with `_id = None` (idle), empty buffer. -/
def BaseTransaction.make (max_attempts : Nat) (read_only : Bool) : BaseTransaction :=
  { max_attempts := max_attempts, read_only := read_only, id := none, write_pbs := [] }

/-- The constructor with both Python default arguments:
`max_attempts=MAX_ATTEMPTS, read_only=False`. -/
def BaseTransaction.makeDefault : BaseTransaction :=
  BaseTransaction.make MAX_ATTEMPTS false

/-- Embedding of `BaseTransaction._options_protobuf(retry_id)`: `ValueError`
becomes `Except.error`; the `None` return (default read-write mode) is
`Except.ok none`. -/
def BaseTransaction._options_protobuf (t : BaseTransaction) (retry_id : Option Bytes) :
    Except String (Option TransactionOptions) :=
  match retry_id with
  | some rid =>
      if t.read_only then
        Except.error _CANT_RETRY_READ_ONLY
      else
        Except.ok (some (TransactionOptions.read_write rid))
  | none =>
      if t.read_only then
        Except.ok (some TransactionOptions.read_only)
      else
        Except.ok none

/-- Embedding of the `BaseTransaction.in_progress` property:
`self._id is not None`. -/
def BaseTransaction.in_progress (t : BaseTransaction) : Bool :=
  t.id.isSome

/-- Embedding of `BaseTransaction._clean_up()`: sets `_write_pbs = []` and
`_id = None`, touching nothing else. -/
def BaseTransaction._clean_up (t : BaseTransaction) : BaseTransaction :=
  { t with write_pbs := [], id := none }

/-- Embedding of the state of `_BaseTransactional` (`base_transaction.py`),
parametric in the type of the wrapped callable. -/
structure _BaseTransactional (F : Type) where
  to_wrap : F
  current_id : Option Bytes
  retry_id : Option Bytes

/-- Embedding of `_BaseTransactional.__init__(to_wrap)`: stores the callable
and sets `current_id = None`, `retry_id = None`. -/
def _BaseTransactional.make {F : Type} (to_wrap : F) : _BaseTransactional F :=
  { to_wrap := to_wrap, current_id := none, retry_id := none }

/-- Embedding of `_BaseTransactional._reset()`: unsets both transaction IDs. -/
def _BaseTransactional._reset {F : Type} (w : _BaseTransactional F) : _BaseTransactional F :=
  { w with current_id := none, retry_id := none }

mutual

/-- A collection reference together with the documents the backend currently
stores in it; collection ids play no role in `_recursive_delete`, so only the
member documents are carried. -/
inductive CollectionReference where
  | node (docs : List DocumentReference)

/-- A document reference: its document id and the sub-collections the backend
currently stores under it (`reference.collections()`). -/
inductive DocumentReference where
  | node (docId : String) (collections : List CollectionReference)

end

/-- The dynamically-typed `reference` argument of `Client._recursive_delete`:
a collection reference, a document reference, or a value of any other runtime
type (the `else: raise TypeError` branch). -/
inductive Reference where
  | collection (c : CollectionReference)
  | document (d : DocumentReference)
  | unexpected (typeName : String)

/-- `True` on the two reference types `_recursive_delete` accepts. -/
def Reference.isCollectionOrDocument : Reference → Bool
  | Reference.collection _ => true
  | Reference.document _ => true
  | Reference.unexpected _ => false

mutual

/-- Modelled from the spec: the descendant-document enumeration produced by
`reference.recursive().select([FieldPath.document_id()])._chunkify(chunk_size)`
in `Client._recursive_delete`. The query machinery (`base_collection.py`,
`query.py`) is not among the given sources; the spec describes the traversal
as depth-first with sub-descendants enumerated before their parent document
("collection → documents → their sub-collections, depth-first", scenario
order `C, A, B`). Chunking only partitions this sequence, so the flattened
order and count are chunk-size independent. -/
def CollectionReference.recursiveDocIds : CollectionReference → List String
  | CollectionReference.node docs => docListRecursiveIds docs

/-- Modelled from the spec: descendant enumeration of a collection's document
list, in order. -/
def docListRecursiveIds : List DocumentReference → List String
  | [] => []
  | d :: rest => DocumentReference.selfAndDescendantIds d ++ docListRecursiveIds rest

/-- Modelled from the spec: a document's contribution to the enumeration —
all documents under its sub-collections first, then the document itself. -/
def DocumentReference.selfAndDescendantIds : DocumentReference → List String
  | DocumentReference.node docId cols => colListRecursiveIds cols ++ [docId]

/-- Modelled from the spec: descendant enumeration of a list of
sub-collections, in order. -/
def colListRecursiveIds : List CollectionReference → List String
  | [] => []
  | c :: rest => CollectionReference.recursiveDocIds c ++ colListRecursiveIds rest

end

/-- One call made on the `BulkWriter` by `_recursive_delete`: either
`bulk_writer.delete(ref)` on a document reference (identified by its document
id) or `bulk_writer.close()`. -/
inductive BWEvent where
  | delete (docId : String)
  | close
deriving Repr, DecidableEq, BEq

/-- `True` exactly on `delete` events. -/
def BWEvent.isDelete : BWEvent → Bool
  | BWEvent.delete _ => true
  | BWEvent.close => false

/-- `True` exactly on the `close` event. -/
def BWEvent.isClose : BWEvent → Bool
  | BWEvent.delete _ => false
  | BWEvent.close => true

/-- Result of a `_recursive_delete` call: the returned `num_deleted` count,
the ordered trace of calls it made on the bulk writer, and the `TypeError`
message when it raised (in which case `num_deleted` is meaningless and the
trace holds the calls made before the raise). -/
structure RDResult where
  num_deleted : Nat
  events : List BWEvent
  error : Option String
deriving Repr, DecidableEq

mutual

/-- Embedding of `Client._recursive_delete(reference, bulk_writer, depth)`.
`chunk_size` is omitted: it only partitions the descendant enumeration (see
`CollectionReference.recursiveDocIds`) and does not change the flattened
delete sequence or the count. The trailing `if depth == 0: bulk_writer.close()`
of the source is appended in each non-raising branch; a raise propagates past
it. -/
def Client._recursive_delete (reference : Reference) (depth : Nat) : RDResult :=
  match reference with
  | Reference.collection c =>
      let docIds := c.recursiveDocIds
      { num_deleted := docIds.length,
        events := docIds.map BWEvent.delete ++ (if depth = 0 then [BWEvent.close] else []),
        error := none }
  | Reference.document (DocumentReference.node docId cols) =>
      let nested := Client._recursive_delete_cols cols (depth + 1)
      match nested.error with
      | some e =>
          { num_deleted := 0, events := nested.events, error := some e }
      | none =>
          { num_deleted := nested.num_deleted + 1,
            events := nested.events ++ [BWEvent.delete docId] ++
              (if depth = 0 then [BWEvent.close] else []),
            error := none }
  | Reference.unexpected typeName =>
      { num_deleted := 0, events := [],
        error := some (String.append "Unexpected type for reference: " typeName) }
termination_by sizeOf reference

/-- The `for col_ref in reference.collections():` loop of the document branch:
each iteration adds the nested call's return value to `num_deleted`; an
exception in a nested call propagates, ending the loop. -/
def Client._recursive_delete_cols (cols : List CollectionReference) (depth : Nat) : RDResult :=
  match cols with
  | [] => { num_deleted := 0, events := [], error := none }
  | c :: rest =>
      let r := Client._recursive_delete (Reference.collection c) depth
      match r.error with
      | some e => { num_deleted := 0, events := r.events, error := some e }
      | none =>
          let tail := Client._recursive_delete_cols rest depth
          { num_deleted := r.num_deleted + tail.num_deleted,
            events := r.events ++ tail.events,
            error := tail.error }
termination_by sizeOf cols
decreasing_by
  all_goals simp_wf
  all_goals cases rest <;> simp

end

/-- Embedding of `Client.recursive_delete(reference, ...)`: delegates to the
helper at `depth = 0` (the bulk writer, default-constructed when not supplied,
is the trace's implicit target; `chunk_size` defaults pass through). -/
def Client.recursive_delete (reference : Reference) : RDResult :=
  Client._recursive_delete reference 0

/-- Embedding of `CollectionReference.add(document_data, document_id, retry,
timeout)` (`collection.py`). The shared base method `self._prep_add` and the
document reference's `create` are code outside the given sources, so they are
abstract parameters (the same parameters are handed to the asynchronous
embedding below): `prep_add` returns the prepared `(document_ref, kwargs)`
pair, `create` performs the create RPC yielding a write result, and
`update_time` projects the write result's update timestamp. The method
returns `(write_result.update_time, document_ref)`. -/
def CollectionReference.add {Data DocId R T DocRef Kwargs WR Ts : Type}
    (prep_add : Data → Option DocId → R → Option T → DocRef × Kwargs)
    (create : DocRef → Data → Kwargs → WR)
    (update_time : WR → Ts)
    (document_data : Data) (document_id : Option DocId)
    (retry : R) (timeout : Option T) : Ts × DocRef :=
  let prepared := prep_add document_data document_id retry timeout
  let document_ref := prepared.1
  let kwargs := prepared.2
  let write_result := create document_ref document_data kwargs
  (update_time write_result, document_ref)

/-- Embedding of `AsyncCollectionReference.add(...)` (`async_collection.py`):
the same body as the synchronous version except that `create` is awaited;
the coroutine is modelled in the identity monad, whose single bind marks the
suspension point `write_result = await document_ref.create(...)`. -/
def AsyncCollectionReference.add {Data DocId R T DocRef Kwargs WR Ts : Type}
    (prep_add : Data → Option DocId → R → Option T → DocRef × Kwargs)
    (create : DocRef → Data → Kwargs → Id WR)
    (update_time : WR → Ts)
    (document_data : Data) (document_id : Option DocId)
    (retry : R) (timeout : Option T) : Id (Ts × DocRef) := do
  let prepared := prep_add document_data document_id retry timeout
  let document_ref := prepared.1
  let kwargs := prepared.2
  let write_result ← create document_ref document_data kwargs
  pure (update_time write_result, document_ref)

/-- The document `C` of the spec's recursive-delete scenario: no
sub-collections. -/
def scenarioDocC : DocumentReference := DocumentReference.node "C" []

/-- The document `A` of the scenario: one sub-collection containing `C`. -/
def scenarioDocA : DocumentReference :=
  DocumentReference.node "A" [CollectionReference.node [scenarioDocC]]

/-- The document `B` of the scenario: no sub-collections. -/
def scenarioDocB : DocumentReference := DocumentReference.node "B" []

/-- The scenario collection holding documents `A` and `B`. -/
def scenarioCollection : CollectionReference :=
  CollectionReference.node [scenarioDocA, scenarioDocB]

/-- C1: `_options_protobuf` performs exactly this case analysis: a non-null
`retry_id` on a non-read-only transaction yields read-write options carrying
`retry_id` as the `retry_transaction` token; a null `retry_id` on a read-only
transaction yields read-only options; a null `retry_id` on a read-write
transaction yields `None` (default read-write mode). -/
theorem options_protobuf_case_analysis (t : BaseTransaction) (retry_id : Option Bytes) :
    (∀ rid : Bytes, retry_id = some rid → t.read_only = false →
      t._options_protobuf retry_id = Except.ok (some (TransactionOptions.read_write rid))) ∧
    (retry_id = none → t.read_only = true →
      t._options_protobuf retry_id = Except.ok (some TransactionOptions.read_only)) ∧
    (retry_id = none → t.read_only = false →
      t._options_protobuf retry_id = Except.ok none) := by
  refine ⟨fun rid hrid hro => ?_, fun hrid hro => ?_, fun hrid hro => ?_⟩ <;>
    subst hrid <;> simp [BaseTransaction._options_protobuf, hro]

/-- Witness for C1: the three cases evaluated at concrete transactions. -/
theorem options_protobuf_case_analysis_witness :
    (BaseTransaction.make 5 false)._options_protobuf (some [7]) =
      Except.ok (some (TransactionOptions.read_write [7])) ∧
    (BaseTransaction.make 5 true)._options_protobuf none =
      Except.ok (some TransactionOptions.read_only) ∧
    (BaseTransaction.make 5 false)._options_protobuf none = Except.ok none :=
  ⟨(options_protobuf_case_analysis (BaseTransaction.make 5 false) (some [7])).1 [7] rfl rfl,
   (options_protobuf_case_analysis (BaseTransaction.make 5 true) none).2.1 rfl rfl,
   (options_protobuf_case_analysis (BaseTransaction.make 5 false) none).2.2 rfl rfl⟩

/-- C2: on a read-only transaction, `_options_protobuf` with a non-null
`retry_id` raises the invalid-retry-configuration `ValueError` ("Only
read-write transactions can be retried."), and raises nothing when `retry_id`
is null. -/
theorem read_only_rejects_retry_id (t : BaseTransaction) (h : t.read_only = true) :
    (∀ rid : Bytes, t._options_protobuf (some rid) = Except.error _CANT_RETRY_READ_ONLY) ∧
    (∃ v, t._options_protobuf none = Except.ok v) := by
  constructor
  · intro rid
    simp [BaseTransaction._options_protobuf, h]
  · exact ⟨some TransactionOptions.read_only, by simp [BaseTransaction._options_protobuf, h]⟩

/-- Witness for C2: evaluated on a concrete read-only transaction. -/
theorem read_only_rejects_retry_id_witness :
    ((BaseTransaction.make 5 true)._options_protobuf (some [1]) =
      Except.error _CANT_RETRY_READ_ONLY) ∧
    (∃ v, (BaseTransaction.make 5 true)._options_protobuf none = Except.ok v) :=
  ⟨(read_only_rejects_retry_id (BaseTransaction.make 5 true) rfl).1 [1],
   (read_only_rejects_retry_id (BaseTransaction.make 5 true) rfl).2⟩

/-- C3: `in_progress` holds exactly when `id` is non-null (the Boolean
equation with `Option.isSome` states the iff); a freshly constructed
transaction has `id = none` and is not in progress, and after `_clean_up`
the transaction has `id = none` and is not in progress. -/
theorem in_progress_iff_id_nonnull (t : BaseTransaction) (ma : Nat) (ro : Bool) :
    (t.in_progress = t.id.isSome) ∧
    ((BaseTransaction.make ma ro).id = none ∧
      (BaseTransaction.make ma ro).in_progress = false) ∧
    ((t._clean_up).id = none ∧ (t._clean_up).in_progress = false) :=
  ⟨rfl, ⟨rfl, rfl⟩, ⟨rfl, rfl⟩⟩

/-- C4: `_clean_up` sets `id` to null and the write buffer to the empty list
on every transaction state (an empty buffer included), leaving `read_only`
and `max_attempts` unchanged. -/
theorem clean_up_clears_id_and_buffer (t : BaseTransaction) :
    (t._clean_up).id = none ∧ (t._clean_up).write_pbs = [] ∧
    (t._clean_up).read_only = t.read_only ∧
    (t._clean_up).max_attempts = t.max_attempts :=
  ⟨rfl, rfl, rfl, rfl⟩

/-- C7: the transaction constructor with no explicit options yields an idle
transaction with `max_attempts = 5` and `read_only = false`; supplied options
are stored exactly as given. -/
theorem transaction_factory_options (ma : Nat) (ro : Bool) :
    (BaseTransaction.makeDefault.id = none ∧
      BaseTransaction.makeDefault.max_attempts = 5 ∧
      BaseTransaction.makeDefault.read_only = false) ∧
    ((BaseTransaction.make ma ro).max_attempts = ma ∧
      (BaseTransaction.make ma ro).read_only = ro ∧
      (BaseTransaction.make ma ro).id = none) :=
  ⟨⟨rfl, rfl, rfl⟩, ⟨rfl, rfl, rfl⟩⟩

/-- C8: `_reset` sets both `current_id` and `retry_id` to null in every
wrapper state, and a freshly constructed wrapper has both null. -/
theorem transactional_reset_clears_ids {F : Type} (w : _BaseTransactional F) (f : F) :
    ((w._reset).current_id = none ∧ (w._reset).retry_id = none) ∧
    ((_BaseTransactional.make f).current_id = none ∧
      (_BaseTransactional.make f).retry_id = none) :=
  ⟨⟨rfl, rfl⟩, ⟨rfl, rfl⟩⟩

/-- C9: the synchronous and asynchronous `add` bodies are equivalent: with the
same `_prep_add` preparation and the same create result, the awaited
asynchronous run returns the same `(update_time, document_ref)` pair as the
blocking version, and the returned reference is exactly the prepared one. -/
theorem add_sync_async_equivalent {Data DocId R T DocRef Kwargs WR Ts : Type}
    (prep_add : Data → Option DocId → R → Option T → DocRef × Kwargs)
    (create : DocRef → Data → Kwargs → WR)
    (update_time : WR → Ts)
    (document_data : Data) (document_id : Option DocId)
    (retry : R) (timeout : Option T) :
    Id.run (AsyncCollectionReference.add prep_add
        (fun dr dd kw => pure (create dr dd kw)) update_time
        document_data document_id retry timeout) =
      CollectionReference.add prep_add create update_time
        document_data document_id retry timeout ∧
    (CollectionReference.add prep_add create update_time
        document_data document_id retry timeout).2 =
      (prep_add document_data document_id retry timeout).1 :=
  ⟨rfl, rfl⟩

/-- Unfolding of the collection branch of `Client._recursive_delete`: one
delete per enumerated descendant document, a close exactly at depth 0, and no
raise. -/
theorem recursive_delete_collection_eq (c : CollectionReference) (depth : Nat) :
    Client._recursive_delete (Reference.collection c) depth =
      { num_deleted := c.recursiveDocIds.length,
        events := c.recursiveDocIds.map BWEvent.delete ++
          (if depth = 0 then [BWEvent.close] else []),
        error := none } := by
  rw [Client._recursive_delete]

/-- A pure delete trace contains no close. -/
theorem countP_isClose_map_delete (l : List String) :
    ((l.map BWEvent.delete).countP fun e => e.isClose) = 0 := by
  simp [List.countP_map, Function.comp_def, BWEvent.isClose]

/-- Every event of a pure delete trace is a delete. -/
theorem countP_isDelete_map_delete (l : List String) :
    ((l.map BWEvent.delete).countP fun e => e.isDelete) = l.length := by
  simp [List.countP_map, Function.comp_def, BWEvent.isDelete]

/-- Evaluation of `isClose` on the `close` constructor. -/
theorem isClose_close : BWEvent.close.isClose = true := rfl

/-- Evaluation of `isClose` on a `delete` constructor. -/
theorem isClose_delete (s : String) : (BWEvent.delete s).isClose = false := rfl

/-- Evaluation of `isDelete` on the `close` constructor. -/
theorem isDelete_close : BWEvent.close.isDelete = false := rfl

/-- Evaluation of `isDelete` on a `delete` constructor. -/
theorem isDelete_delete (s : String) : (BWEvent.delete s).isDelete = true := rfl

/-- The document-branch loop over sub-collections never raises, its trace
contains closes only when invoked at depth 0 (one per sub-collection), and the
count it returns equals the number of deletes in its trace. -/
theorem recursive_delete_cols_spec (cols : List CollectionReference) (depth : Nat) :
    (Client._recursive_delete_cols cols depth).error = none ∧
    ((Client._recursive_delete_cols cols depth).events.countP fun e => e.isClose) =
      (if depth = 0 then cols.length else 0) ∧
    (Client._recursive_delete_cols cols depth).num_deleted =
      ((Client._recursive_delete_cols cols depth).events.countP fun e => e.isDelete) := by
  induction cols with
  | nil => simp [Client._recursive_delete_cols]
  | cons c rest ih =>
      obtain ⟨ih1, ih2, ih3⟩ := ih
      rw [Client._recursive_delete_cols, recursive_delete_collection_eq]
      by_cases hd : depth = 0
      · subst hd
        rw [if_pos rfl] at ih2
        simp [ih1, ih2, ih3, List.countP_append, List.countP_cons, Function.comp_def,
          isClose_close, isClose_delete, isDelete_close, isDelete_delete]
      · rw [if_neg hd] at ih2
        simp [hd, ih1, ih2, ih3, List.countP_append, List.countP_cons, Function.comp_def,
          isClose_close, isClose_delete, isDelete_close, isDelete_delete]

/-- C6: `_recursive_delete` closes the batched-write queue exactly when its
`depth` argument is 0 — on every collection or document reference the trace
holds one close at depth 0 and none at any positive depth — so the top-level
`recursive_delete` (depth 0) closes the queue exactly once and nested
recursive calls (depth ≥ 1) never close it. -/
theorem recursive_delete_close_only_at_depth_zero (r : Reference) (depth : Nat)
    (h : r.isCollectionOrDocument = true) :
    (((Client._recursive_delete r depth).events.countP fun e => e.isClose) =
      (if depth = 0 then 1 else 0)) ∧
    (((Client.recursive_delete r).events.countP fun e => e.isClose) = 1) := by
  have key : ∀ d : Nat,
      ((Client._recursive_delete r d).events.countP fun e => e.isClose) =
        (if d = 0 then 1 else 0) := by
    intro d
    cases r with
    | collection c =>
        rw [recursive_delete_collection_eq]
        by_cases hd : d = 0 <;>
          simp [hd, List.countP_append, List.countP_cons, Function.comp_def,
            isClose_close, isClose_delete]
    | document doc =>
        cases doc with
        | node docId cols =>
            rw [Client._recursive_delete]
            by_cases hd : d = 0
            · subst hd
              obtain ⟨h1, h2, _⟩ := recursive_delete_cols_spec cols 1
              rw [if_neg one_ne_zero] at h2
              simp [h1, h2, List.countP_append, List.countP_cons, Function.comp_def,
                isClose_close, isClose_delete]
            · obtain ⟨h1, h2, _⟩ := recursive_delete_cols_spec cols (d + 1)
              rw [if_neg (by omega : ¬(d + 1 = 0))] at h2
              simp [hd, h1, h2, List.countP_append, List.countP_cons, Function.comp_def,
                isClose_close, isClose_delete]
    | unexpected tn => simp [Reference.isCollectionOrDocument] at h
  refine ⟨key depth, ?_⟩
  simpa [Client.recursive_delete] using key 0

/-- Witness for C6: the scenario collection at the positive depth 3 and at the
top level. -/
theorem recursive_delete_close_only_at_depth_zero_witness :
    (((Client._recursive_delete (Reference.collection scenarioCollection) 3).events.countP
        fun e => e.isClose) = (if 3 = 0 then 1 else 0)) ∧
    (((Client.recursive_delete (Reference.collection scenarioCollection)).events.countP
        fun e => e.isClose) = 1) :=
  recursive_delete_close_only_at_depth_zero (Reference.collection scenarioCollection) 3 rfl

/-- C10: on every collection or document reference, `recursive_delete` returns
exactly the number of deletes it enqueued on the batched-write queue (for a
document reference the document itself included), and on a reference of any
other runtime type it raises a `TypeError` having enqueued nothing. -/
theorem recursive_delete_returns_delete_count (r : Reference) (tn : String)
    (h : r.isCollectionOrDocument = true) :
    ((Client.recursive_delete r).num_deleted =
      ((Client.recursive_delete r).events.countP fun e => e.isDelete)) ∧
    ((Client.recursive_delete (Reference.unexpected tn)).error =
        some (String.append "Unexpected type for reference: " tn) ∧
      (Client.recursive_delete (Reference.unexpected tn)).events = []) := by
  refine ⟨?_, ?_, ?_⟩
  · cases r with
    | collection c =>
        rw [Client.recursive_delete, recursive_delete_collection_eq]
        simp [List.countP_append, List.countP_cons, Function.comp_def,
          isDelete_close, isDelete_delete]
    | document doc =>
        cases doc with
        | node docId cols =>
            obtain ⟨h1, _, h3⟩ := recursive_delete_cols_spec cols 1
            rw [Client.recursive_delete, Client._recursive_delete]
            simp [h1, h3, List.countP_append, List.countP_cons, Function.comp_def,
              isDelete_close, isDelete_delete]
    | unexpected tn2 => simp [Reference.isCollectionOrDocument] at h
  · rw [Client.recursive_delete, Client._recursive_delete]
  · rw [Client.recursive_delete, Client._recursive_delete]

/-- Witness for C10: the count equation on a document reference with one
sub-collection, and the `TypeError` outcome on an `int` argument. -/
theorem recursive_delete_returns_delete_count_witness :
    ((Client.recursive_delete (Reference.document scenarioDocA)).num_deleted =
      ((Client.recursive_delete (Reference.document scenarioDocA)).events.countP
        fun e => e.isDelete)) ∧
    ((Client.recursive_delete (Reference.unexpected "int")).error =
        some (String.append "Unexpected type for reference: " "int") ∧
      (Client.recursive_delete (Reference.unexpected "int")).events = []) :=
  recursive_delete_returns_delete_count (Reference.document scenarioDocA) "int" rfl

/-- C5: recursive delete on the scenario collection (documents `A`, `B`, with
`A` holding a sub-collection containing `C`) enqueues deletes for `C`, `A`,
`B` in that order and closes the batched-write queue exactly once, after
them. -/
theorem recursive_delete_scenario_trace :
    (Client.recursive_delete (Reference.collection scenarioCollection)).events =
      [BWEvent.delete "C", BWEvent.delete "A", BWEvent.delete "B", BWEvent.close] ∧
    (((Client.recursive_delete (Reference.collection scenarioCollection)).events.countP
      fun e => e.isClose) = 1) := by
  have htrace : (Client.recursive_delete (Reference.collection scenarioCollection)).events =
      [BWEvent.delete "C", BWEvent.delete "A", BWEvent.delete "B", BWEvent.close] := by
    simp [Client.recursive_delete, Client._recursive_delete, scenarioCollection,
      scenarioDocA, scenarioDocB, scenarioDocC, CollectionReference.recursiveDocIds,
      docListRecursiveIds, DocumentReference.selfAndDescendantIds, colListRecursiveIds]
  refine ⟨htrace, ?_⟩
  rw [htrace]
  decide
